import Mathlib

/-!
Verification of the CS330 OpenGL scene program (SceneManager.cpp / ViewManager.cpp).

The C++ sources are shallowly embedded below.  `float`/`double` values are
modelled as exact rationals (`ℚ`); GPU side effects (uniform uploads, texture
binds) are modelled as explicit event lists; the mutable members of the two
manager classes are modelled as explicit state records threaded through each
embedded member function.  Since real trigonometric functions are not
executable, the rotation matrices produced by `glm::rotate(angle, axis)` are
parametrised by the cosine/sine pair of the (radian-converted) angle; every
theorem about them is stated for arbitrary such pairs, which covers the
actual cosine/sine values as an instance.
-/

/-- Model of `glm::vec2` (exact rationals in place of IEEE floats). -/
structure Vec2 where
  x : ℚ
  y : ℚ
deriving DecidableEq, Repr

/-- Model of `glm::vec3` (exact rationals in place of IEEE floats). -/
structure Vec3 where
  x : ℚ
  y : ℚ
  z : ℚ
deriving DecidableEq, Repr

/-- Model of `glm::vec4`, with the `r/g/b/a` accessors used by `SetShaderColor`. -/
structure Vec4 where
  r : ℚ
  g : ℚ
  b : ℚ
  a : ℚ
deriving DecidableEq, Repr

/-- 4×4 model matrix, as uploaded to the `model` uniform. -/
abbrev Mat4 := Matrix (Fin 4) (Fin 4) ℚ

/-- One texture-catalog record: `SceneManager.h`'s `TEXTURE_INFO`
(`{GLuint ID; std::string tag;}`), populated by `CreateGLTexture`. -/
structure TextureEntry where
  ID : Nat
  tag : String
deriving DecidableEq, Repr

/-- `OBJECT_MATERIAL`: tagged material record held in `m_objectMaterials`. -/
structure OBJECT_MATERIAL where
  diffuseColor : Vec3
  specularColor : Vec3
  shininess : ℚ
  tag : String
deriving DecidableEq, Repr

/-- Result of a successful `stbi_load` call: the decoded image's dimensions
and channel count (the pixel bytes themselves never influence control flow
in `CreateGLTexture`, only the channel count does). -/
structure ImageData where
  width : Nat
  height : Nat
  colorChannels : Nat
deriving DecidableEq, Repr

/-- One call into the Shader Uniform Sink (`ShaderManager` setter methods).
`setIntValue` carries an `Int` because the C++ method takes an `int`; the
call `setIntValue(g_UseTextureName, true)` passes the converted value `1`
and `setIntValue(g_UseTextureName, false)` passes `0`. -/
inductive UniformEvent where
  | setMat4Value (name : String) (value : Mat4)
  | setIntValue (name : String) (value : Int)
  | setVec4Value (name : String) (value : Vec4)
  | setVec3Value (name : String) (value : Vec3)
  | setVec2Value (name : String) (value : Vec2)
  | setFloatValue (name : String) (value : ℚ)
  | setSampler2DValue (name : String) (value : Int)
deriving DecidableEq

/-- The mutable members of `SceneManager` that the embedded methods touch:
`m_pShaderManager` (modelled by whether the pointer is non-null),
`m_textureIDs`/`m_loadedTextures` (the first `m_loadedTextures` cells of the
16-slot array, as a list), `m_objectMaterials`, and a freshness counter
standing for the OpenGL texture-name generator `glGenTextures`. -/
structure SceneManagerState where
  hasShaderManager : Bool
  textureIDs : List TextureEntry
  objectMaterials : List OBJECT_MATERIAL
  nextTextureID : Nat
deriving DecidableEq, Repr

namespace SceneManager

/-- `SceneManager::CreateGLTexture` (SceneManager.cpp lines 76-140).
`decoded` is the result of the `stbi_load` call: `none` when the file could
not be read.  On a successful decode a GL texture name is generated first
(line 99, modelled by the freshness counter); only 3- and 4-channel images
are then uploaded and registered (lines 110-131), any other channel count
returns `false` before the registration lines run. -/
def createGLTexture (decoded : Option ImageData) (tag : String)
    (st : SceneManagerState) : Bool × SceneManagerState :=
  match decoded with
  | none => (false, st)
  | some image =>
    let textureID := st.nextTextureID
    let st1 := { st with nextTextureID := st.nextTextureID + 1 }
    if image.colorChannels = 3 ∨ image.colorChannels = 4 then
      (true, { st1 with textureIDs := st1.textureIDs ++ [⟨textureID, tag⟩] })
    else
      (false, st1)

/-- Loop body of `SceneManager::BindGLTextures` (lines 148-156): entry `i`
of the catalog is bound to texture unit `GL_TEXTURE0 + i`.  The result is
the list of (texture unit, texture ID) bind calls in issue order. -/
def bindGLTexturesAux : List TextureEntry → Nat → List (Nat × Nat)
  | [], _ => []
  | e :: rest, i => (i, e.ID) :: bindGLTexturesAux rest (i + 1)

/-- `SceneManager::BindGLTextures` (lines 148-156). -/
def bindGLTextures (st : SceneManagerState) : List (Nat × Nat) :=
  bindGLTexturesAux st.textureIDs 0

/-- While-loop of `SceneManager::FindTextureSlot` (lines 210-219): first
match wins, `index` counts up from the starting value. -/
def findTextureSlotAux : List TextureEntry → String → Nat → Int
  | [], _, _ => -1
  | e :: rest, tag, index =>
    if e.tag = tag then (index : Int) else findTextureSlotAux rest tag (index + 1)

/-- `SceneManager::FindTextureSlot` (lines 204-222): first-match linear scan
returning the slot index, or the sentinel `-1` when the tag is absent. -/
def findTextureSlot (entries : List TextureEntry) (tag : String) : Int :=
  findTextureSlotAux entries tag 0

/-- While-loop of `SceneManager::FindTextureID` (lines 178-196): like
`FindTextureSlot` but returning the stored GL texture ID instead of the
slot index. -/
def findTextureIDAux : List TextureEntry → String → Int
  | [], _ => -1
  | e :: rest, tag => if e.tag = tag then (e.ID : Int) else findTextureIDAux rest tag

/-- `SceneManager::FindTextureID` (lines 178-196). -/
def findTextureID (entries : List TextureEntry) (tag : String) : Int :=
  findTextureIDAux entries tag

/-- While-loop of `SceneManager::FindMaterial` (lines 237-252): scans for
the first entry whose tag matches; on a hit it overwrites the out-parameter's
`diffuseColor`, `specularColor` and `shininess` fields (the `tag` field of
the out-parameter is never written); on a miss the out-parameter is left
untouched. -/
def findMaterialLoop : List OBJECT_MATERIAL → String → OBJECT_MATERIAL → OBJECT_MATERIAL
  | [], _, material => material
  | e :: rest, tag, material =>
    if e.tag = tag then
      { material with diffuseColor := e.diffuseColor,
                      specularColor := e.specularColor,
                      shininess := e.shininess }
    else
      findMaterialLoop rest tag material

/-- `SceneManager::FindMaterial` (lines 230-255).  `material` is the
caller's reference argument on entry; the result pairs the returned `bool`
with the out-parameter's value on exit.  Note the source returns `false`
only for an empty catalog (line 234) and otherwise `return(true)` at
line 254, regardless of the loop's `bFound` flag. -/
def findMaterial (materials : List OBJECT_MATERIAL) (tag : String)
    (material : OBJECT_MATERIAL) : Bool × OBJECT_MATERIAL :=
  if materials.length = 0 then
    (false, material)
  else
    (true, findMaterialLoop materials tag material)

/-- Whether the while-loop of `FindMaterial` finds the tag, i.e. the value
the local `bFound` flag holds when the loop exits. -/
def materialTagFound (materials : List OBJECT_MATERIAL) (tag : String) : Bool :=
  materials.any fun e => e.tag = tag

/-- Scale matrix built by `glm::scale(scaleXYZ)` (line 279). -/
def scaleMat (s : Vec3) : Mat4 :=
  Matrix.of ![![s.x, 0, 0, 0], ![0, s.y, 0, 0], ![0, 0, s.z, 0], ![0, 0, 0, 1]]

/-- Rotation about the X axis built by
`glm::rotate(glm::radians(XrotationDegrees), vec3(1,0,0))` (line 281),
parametrised by the cosine `c` and sine `s` of the radian angle. -/
def rotXMat (c s : ℚ) : Mat4 :=
  Matrix.of ![![1, 0, 0, 0], ![0, c, -s, 0], ![0, s, c, 0], ![0, 0, 0, 1]]

/-- Rotation about the Y axis built by
`glm::rotate(glm::radians(YrotationDegrees), vec3(0,1,0))` (line 282). -/
def rotYMat (c s : ℚ) : Mat4 :=
  Matrix.of ![![c, 0, s, 0], ![0, 1, 0, 0], ![-s, 0, c, 0], ![0, 0, 0, 1]]

/-- Rotation about the Z axis built by
`glm::rotate(glm::radians(ZrotationDegrees), vec3(0,0,1))` (line 283). -/
def rotZMat (c s : ℚ) : Mat4 :=
  Matrix.of ![![c, -s, 0, 0], ![s, c, 0, 0], ![0, 0, 1, 0], ![0, 0, 0, 1]]

/-- Translation matrix built by `glm::translate(positionXYZ)` (line 285);
acting on column vectors, the offset sits in the last column. -/
def translateMat (p : Vec3) : Mat4 :=
  Matrix.of ![![1, 0, 0, p.x], ![0, 1, 0, p.y], ![0, 0, 1, p.z], ![0, 0, 0, 1]]

/-- The `modelView` matrix composed at SceneManager.cpp line 287:
`translation * rotationZ * rotationY * rotationX * scale`.  The rotation
angles enter through the cosine/sine pairs `(cx, sx)`, `(cy, sy)`, `(cz, sz)`
of the radian-converted X-, Y- and Z-rotation angles. -/
def modelViewMatrix (scaleXYZ : Vec3) (cx sx cy sy cz sz : ℚ) (positionXYZ : Vec3) : Mat4 :=
  translateMat positionXYZ * rotZMat cz sz * rotYMat cy sy * rotXMat cx sx * scaleMat scaleXYZ

/-- `SceneManager::SetTransformations` (lines 263-293): composes the model
matrix and, only when `m_pShaderManager` is non-null, uploads it under the
uniform name `model`.  No member of `SceneManager` is written, so the state
is returned unchanged alongside the upload events. -/
def setTransformations (scaleXYZ : Vec3) (cx sx cy sy cz sz : ℚ) (positionXYZ : Vec3)
    (st : SceneManagerState) : SceneManagerState × List UniformEvent :=
  let modelView := modelViewMatrix scaleXYZ cx sx cy sy cz sz positionXYZ
  if st.hasShaderManager then
    (st, [.setMat4Value "model" modelView])
  else
    (st, [])

/-- `SceneManager::SetShaderColor` (lines 301-320). -/
def setShaderColor (redColorValue greenColorValue blueColorValue alphaValue : ℚ)
    (st : SceneManagerState) : SceneManagerState × List UniformEvent :=
  let currentColor : Vec4 := ⟨redColorValue, greenColorValue, blueColorValue, alphaValue⟩
  if st.hasShaderManager then
    (st, [.setIntValue "bUseTexture" 0, .setVec4Value "objectColor" currentColor])
  else
    (st, [])

/-- `SceneManager::SetShaderTexture` (lines 328-339): inside the null
guard, the use-texture flag is set to `true` (uploaded as the int `1`) and
the slot resolved by `FindTextureSlot` — the sentinel `-1` included — is
uploaded as the sampler value. -/
def setShaderTexture (textureTag : String)
    (st : SceneManagerState) : SceneManagerState × List UniformEvent :=
  if st.hasShaderManager then
    (st, [.setIntValue "bUseTexture" 1,
          .setSampler2DValue "objectTexture" (findTextureSlot st.textureIDs textureTag)])
  else
    (st, [])

/-- `SceneManager::SetTextureUVScale` (lines 347-353). -/
def setTextureUVScale (u v : ℚ)
    (st : SceneManagerState) : SceneManagerState × List UniformEvent :=
  if st.hasShaderManager then
    (st, [.setVec2Value "UVscale" ⟨u, v⟩])
  else
    (st, [])

/-- `SceneManager::SetShaderMaterial` (lines 361-377).  `material` is a
local variable declared without an initialiser (line 366); its junk initial
contents are made explicit as the argument `uninitialized`.  When the
catalog is non-empty and `FindMaterial` returns `true`, the three material
uniforms are uploaded from the out-parameter's final value (the source does
not null-check `m_pShaderManager` here; we model the non-null case). -/
def setShaderMaterial (uninitialized : OBJECT_MATERIAL) (materialTag : String)
    (st : SceneManagerState) : SceneManagerState × List UniformEvent :=
  if st.objectMaterials.length > 0 then
    let r := findMaterial st.objectMaterials materialTag uninitialized
    if r.1 then
      (st, [.setVec3Value "material.diffuseColor" r.2.diffuseColor,
            .setVec3Value "material.specularColor" r.2.specularColor,
            .setFloatValue "material.shininess" r.2.shininess])
    else
      (st, [])
  else
    (st, [])

end SceneManager

/-- The camera fields touched by ViewManager.cpp (the `Camera` class itself
lives in an external header; these are exactly the members the source under
verification reads and writes). -/
structure Camera where
  Position : Vec3
  Front : Vec3
  Up : Vec3
  Yaw : ℚ
  Pitch : ℚ
  Zoom : ℚ
  MovementSpeed : ℚ
deriving DecidableEq, Repr

/-- Componentwise vector sum, for `g_pCamera->Position += ...`. -/
def Vec3.add (a b : Vec3) : Vec3 := ⟨a.x + b.x, a.y + b.y, a.z + b.z⟩

/-- Componentwise vector difference, for `g_pCamera->Position -= ...`. -/
def Vec3.sub (a b : Vec3) : Vec3 := ⟨a.x - b.x, a.y - b.y, a.z - b.z⟩

/-- Vector-times-scalar, for `Up * MovementSpeed * gDeltaTime`. -/
def Vec3.scale (a : Vec3) (k : ℚ) : Vec3 := ⟨a.x * k, a.y * k, a.z * k⟩

namespace ViewManager

/-- `Scroll_Callback` (ViewManager.cpp lines 62-72), for a non-null camera:
adds the scroll amount `yoffset` to the movement speed, then forces the
result back into range with the two comparisons at lines 69-70. -/
def scroll_Callback (yoffset : ℚ) (camera : Camera) : Camera :=
  let newSpeed := camera.MovementSpeed + yoffset
  let newSpeed := if newSpeed < 1 then 1 else newSpeed
  let newSpeed := if newSpeed > 50 then 50 else newSpeed
  { camera with MovementSpeed := newSpeed }

/-- The mouse-tracking globals `gLastX`, `gLastY`, `gFirstMouse`
(ViewManager.cpp lines 48-50). -/
structure MouseState where
  gLastX : ℚ
  gLastY : ℚ
  gFirstMouse : Bool
deriving DecidableEq, Repr

/-- `ViewManager::Mouse_Position_Callback` (lines 156-178): on the first
event the position is latched and the first-event flag cleared (lines
161-166); the offsets `(xMousePos - gLastX, gLastY - yMousePos)` are then
computed (lines 169-170) and the last position updated (lines 173-174).
The result pairs the updated globals with the `(xOffset, yOffset)` pair
handed to `Camera::ProcessMouseMovement`. -/
def mouse_Position_Callback (xMousePos yMousePos : ℚ)
    (ms : MouseState) : MouseState × (ℚ × ℚ) :=
  let ms1 :=
    if ms.gFirstMouse then
      { gLastX := xMousePos, gLastY := yMousePos, gFirstMouse := false }
    else
      ms
  let xOffset := xMousePos - ms1.gLastX
  let yOffset := ms1.gLastY - yMousePos
  ({ gLastX := xMousePos, gLastY := yMousePos, gFirstMouse := ms1.gFirstMouse },
   (xOffset, yOffset))

/-- The four symbolic directions passed to `Camera::ProcessKeyboard`. -/
inductive CameraMovement where
  | FORWARD
  | BACKWARD
  | LEFT
  | RIGHT
deriving DecidableEq, Repr

/-- Which keys `glfwGetKey` reports as pressed during one call of
`ProcessKeyboardEvents` (the fixed key set of lines 189-241). -/
structure KeySet where
  escape : Bool
  p : Bool
  o : Bool
  w : Bool
  s : Bool
  a : Bool
  d : Bool
  q : Bool
  e : Bool
deriving DecidableEq, Repr

/-- The state `ProcessKeyboardEvents` acts on: the window-close request,
the projection-mode global `bOrthographicProjection` (line 58) and the
camera `*g_pCamera`. -/
structure ViewState where
  windowShouldClose : Bool
  bOrthographicProjection : Bool
  camera : Camera
deriving DecidableEq, Repr

/-- `ViewManager::ProcessKeyboardEvents` (lines 186-245), for a non-null
camera.  `processKeyboard` stands for the external method
`Camera::ProcessKeyboard(direction, deltaTime)` (declared in the camera
header, outside this repository); the W/S/A/D branches delegate to it while
the Q/E branches update the position inline (lines 238, 243).  Branch
order follows the source: Escape, then P (clear orthographic, camera
untouched, lines 193-198), then O (set orthographic and snap the camera
to position `(0,0,10)`, front `normalize((0,0,-1)) = (0,0,-1)`, up
`(0,1,0)`, yaw `-90`, pitch `0`, lines 200-209), then the movement keys. -/
def processKeyboardEvents
    (processKeyboard : CameraMovement → ℚ → Camera → Camera)
    (keys : KeySet) (gDeltaTime : ℚ) (st : ViewState) : ViewState :=
  let st := if keys.escape then { st with windowShouldClose := true } else st
  let st := if keys.p then { st with bOrthographicProjection := false } else st
  let st :=
    if keys.o then
      { st with bOrthographicProjection := true,
                camera := { st.camera with
                              Position := ⟨0, 0, 10⟩,
                              Front := ⟨0, 0, -1⟩,
                              Up := ⟨0, 1, 0⟩,
                              Yaw := -90,
                              Pitch := 0 } }
    else st
  let st := if keys.w then
    { st with camera := processKeyboard .FORWARD gDeltaTime st.camera } else st
  let st := if keys.s then
    { st with camera := processKeyboard .BACKWARD gDeltaTime st.camera } else st
  let st := if keys.a then
    { st with camera := processKeyboard .LEFT gDeltaTime st.camera } else st
  let st := if keys.d then
    { st with camera := processKeyboard .RIGHT gDeltaTime st.camera } else st
  let st := if keys.q then
    { st with camera := { st.camera with
        Position := st.camera.Position.add
          (st.camera.Up.scale (st.camera.MovementSpeed * gDeltaTime)) } } else st
  let st := if keys.e then
    { st with camera := { st.camera with
        Position := st.camera.Position.sub
          (st.camera.Up.scale (st.camera.MovementSpeed * gDeltaTime)) } } else st
  st

end ViewManager

namespace SceneManager

/-- The material catalog built by `SceneManager::DefineObjectMaterials`
(SceneManager.cpp lines 386-427): plastic, wood, metal, glass, tile, stone,
in push order. -/
def definedObjectMaterials : List OBJECT_MATERIAL :=
  [⟨⟨1, 1, 1⟩, ⟨1/5, 1/5, 1/5⟩, 21, "plastic"⟩,
   ⟨⟨3/5, 1/2, 1/5⟩, ⟨1/10, 1/5, 1/5⟩, 1, "wood"⟩,
   ⟨⟨3/10, 3/10, 1/5⟩, ⟨7/10, 7/10, 4/5⟩, 8, "metal"⟩,
   ⟨⟨3/10, 3/10, 1/5⟩, ⟨9/10, 9/10, 4/5⟩, 10, "glass"⟩,
   ⟨⟨1/2, 1/2, 1/2⟩, ⟨7/10, 7/10, 7/10⟩, 6, "tile"⟩,
   ⟨⟨1/2, 1/2, 1/2⟩, ⟨73/100, 3/10, 3/10⟩, 6, "stone"⟩]

/-- The `FindTextureSlot` loop returns the sentinel `-1` from any starting
index when no catalog entry carries the tag. -/
theorem findTextureSlotAux_not_found (entries : List TextureEntry) (tag : String) :
    (∀ e ∈ entries, e.tag ≠ tag) → ∀ n, findTextureSlotAux entries tag n = -1 := by
  induction entries with
  | nil => intro _ n; rfl
  | cons e rest ih =>
    intro h n
    have he : e.tag ≠ tag := h e (List.mem_cons_self e rest)
    have hrest : ∀ x ∈ rest, x.tag ≠ tag := fun x hx => h x (List.mem_cons_of_mem e hx)
    simp only [findTextureSlotAux, if_neg he]
    exact ih hrest (n + 1)

/-- The `FindTextureSlot` loop stops at the first matching entry: if no
entry of `pre` carries the tag and `entry` does, the returned slot is the
starting index plus `pre.length`. -/
theorem findTextureSlotAux_first_match (pre : List TextureEntry)
    (entry : TextureEntry) (post : List TextureEntry) (tag : String)
    (hfresh : ∀ e ∈ pre, e.tag ≠ tag) (hhit : entry.tag = tag) :
    ∀ n, findTextureSlotAux (pre ++ entry :: post) tag n = (n : Int) + pre.length := by
  induction pre with
  | nil =>
    intro n
    simp only [List.nil_append, findTextureSlotAux, if_pos hhit, List.length_nil]
    push_cast
    ring
  | cons e rest ih =>
    intro n
    have he : e.tag ≠ tag := hfresh e (List.mem_cons_self e rest)
    have hrest : ∀ x ∈ rest, x.tag ≠ tag := fun x hx => hfresh x (List.mem_cons_of_mem e hx)
    have h2 := ih hrest (n + 1)
    simp only [List.cons_append, findTextureSlotAux, if_neg he, List.append_eq]
    rw [h2]
    push_cast [List.length_cons]
    ring

/-- The `BindGLTextures` loop issues the bind calls
`(n, ID₀), (n+1, ID₁), …` when started at unit `n`; expressed through
`List.enumFrom`. -/
theorem bindGLTexturesAux_eq_enumFrom (entries : List TextureEntry) :
    ∀ n, bindGLTexturesAux entries n
      = (List.enumFrom n entries).map fun pe => (pe.1, pe.2.ID) := by
  induction entries with
  | nil => intro n; rfl
  | cons e rest ih =>
    intro n
    simp only [bindGLTexturesAux, List.enumFrom, List.map_cons, ih (n + 1)]

/-- Element `pre.length` of the `BindGLTextures` bind sequence started at
unit `n` is the pair `(n + pre.length, entry.ID)`. -/
theorem bindGLTexturesAux_get_split (pre : List TextureEntry)
    (entry : TextureEntry) (post : List TextureEntry) :
    ∀ n, (bindGLTexturesAux (pre ++ entry :: post) n).get? pre.length
      = some (n + pre.length, entry.ID) := by
  induction pre with
  | nil => intro n; rfl
  | cons e rest ih =>
    intro n
    have h2 := ih (n + 1)
    simp only [List.cons_append, bindGLTexturesAux, List.length_cons, List.get?_cons_succ,
      List.append_eq]
    rw [h2, show n + 1 + rest.length = n + (rest.length + 1) by omega]


/-- The scale matrix fixes the homogeneous origin `(0,0,0,1)`. -/
theorem scaleMat_mulVec_origin (s : Vec3) :
    (scaleMat s).mulVec ![0, 0, 0, 1] = ![0, 0, 0, 1] := by
  funext i
  fin_cases i <;>
    simp [scaleMat, Matrix.mulVec, Matrix.dotProduct, Fin.sum_univ_four]

/-- The X-rotation matrix fixes the homogeneous origin `(0,0,0,1)`. -/
theorem rotXMat_mulVec_origin (c s : ℚ) :
    (rotXMat c s).mulVec ![0, 0, 0, 1] = ![0, 0, 0, 1] := by
  funext i
  fin_cases i <;>
    simp [rotXMat, Matrix.mulVec, Matrix.dotProduct, Fin.sum_univ_four]

/-- The Y-rotation matrix fixes the homogeneous origin `(0,0,0,1)`. -/
theorem rotYMat_mulVec_origin (c s : ℚ) :
    (rotYMat c s).mulVec ![0, 0, 0, 1] = ![0, 0, 0, 1] := by
  funext i
  fin_cases i <;>
    simp [rotYMat, Matrix.mulVec, Matrix.dotProduct, Fin.sum_univ_four]

/-- The Z-rotation matrix fixes the homogeneous origin `(0,0,0,1)`. -/
theorem rotZMat_mulVec_origin (c s : ℚ) :
    (rotZMat c s).mulVec ![0, 0, 0, 1] = ![0, 0, 0, 1] := by
  funext i
  fin_cases i <;>
    simp [rotZMat, Matrix.mulVec, Matrix.dotProduct, Fin.sum_univ_four]

/-- The translation matrix sends the homogeneous origin to the position. -/
theorem translateMat_mulVec_origin (p : Vec3) :
    (translateMat p).mulVec ![0, 0, 0, 1] = ![p.x, p.y, p.z, 1] := by
  funext i
  fin_cases i <;>
    simp [translateMat, Matrix.mulVec, Matrix.dotProduct, Fin.sum_univ_four]

end SceneManager

open SceneManager in
/-- C1: `SetTransformations` composes the model matrix exactly as
`translate(p) * rotateZ(rz) * rotateY(ry) * rotateX(rx) * scale(s)` —
rotations hitting the geometry in X, then Y, then Z order — uploads exactly
that matrix under the `model` uniform, and the composed matrix applied to
the homogeneous origin yields the position `p`.  The rotation angles enter
through the cosine/sine pairs of the radian-converted angles, covering
every angle triple `(rx, ry, rz)`. -/
theorem setTransformations_composes_and_translates_origin
    (s : Vec3) (cx sx cy sy cz sz : ℚ) (p : Vec3)
    (texs : List TextureEntry) (mats : List OBJECT_MATERIAL) (n : Nat) :
    modelViewMatrix s cx sx cy sy cz sz p
      = translateMat p * rotZMat cz sz * rotYMat cy sy * rotXMat cx sx * scaleMat s
    ∧ setTransformations s cx sx cy sy cz sz p ⟨true, texs, mats, n⟩
      = (⟨true, texs, mats, n⟩,
         [.setMat4Value "model" (modelViewMatrix s cx sx cy sy cz sz p)])
    ∧ (modelViewMatrix s cx sx cy sy cz sz p).mulVec ![0, 0, 0, 1]
      = ![p.x, p.y, p.z, 1] := by
  refine ⟨rfl, rfl, ?_⟩
  unfold modelViewMatrix
  rw [← Matrix.mulVec_mulVec, ← Matrix.mulVec_mulVec, ← Matrix.mulVec_mulVec,
    ← Matrix.mulVec_mulVec, scaleMat_mulVec_origin, rotXMat_mulVec_origin,
    rotYMat_mulVec_origin, rotZMat_mulVec_origin, translateMat_mulVec_origin]

open ViewManager in
/-- C3: for every prior camera state, an event-processing pass in which the
switch-to-orthographic key `O` is the (only) pressed key sets the
orthographic flag and resets camera position, front, up, yaw and pitch to
the canonical pose — position `(0,0,10)`, front `(0,0,-1)` (facing −Z), up
`(0,1,0)`, yaw `-90` degrees, pitch `0` — while a pass in which the
switch-to-perspective key `P` is the (only) pressed key clears the flag and
leaves the camera exactly as it was.  `pk` is the external
`Camera::ProcessKeyboard`, arbitrary here. -/
theorem processKeyboardEvents_projection_switch
    (pk : CameraMovement → ℚ → Camera → Camera) (dt : ℚ) (st : ViewState) :
    processKeyboardEvents pk
        ⟨false, false, true, false, false, false, false, false, false⟩ dt st
      = { st with bOrthographicProjection := true,
                  camera := { st.camera with
                                Position := ⟨0, 0, 10⟩,
                                Front := ⟨0, 0, -1⟩,
                                Up := ⟨0, 1, 0⟩,
                                Yaw := -90,
                                Pitch := 0 } }
    ∧ processKeyboardEvents pk
        ⟨false, true, false, false, false, false, false, false, false⟩ dt st
      = { st with bOrthographicProjection := false } :=
  ⟨rfl, rfl⟩

open ViewManager in
/-- C8: the scroll handler sets the movement speed to the old speed plus
the scroll offset, clamped to the interval `[1, 50]`, and touches nothing
else; in particular from speed `10` a scroll of `+100` yields exactly `50`
and a scroll of `-100` yields exactly `1`. -/
theorem scroll_Callback_clamps (yoffset : ℚ) (camera : Camera) :
    scroll_Callback yoffset camera
      = { camera with
            MovementSpeed := max 1 (min 50 (camera.MovementSpeed + yoffset)) }
    ∧ (scroll_Callback 100 { camera with MovementSpeed := 10 }).MovementSpeed = 50
    ∧ (scroll_Callback (-100) { camera with MovementSpeed := 10 }).MovementSpeed = 1 := by
  refine ⟨?_, ?_, ?_⟩
  · simp only [scroll_Callback, max_def, min_def]
    split_ifs <;> first | rfl | (congr 1; first | rfl | linarith)
  · simp only [scroll_Callback]
    norm_num
  · simp only [scroll_Callback]
    norm_num

open ViewManager in
/-- C9: the first mouse-move event after activation (first-event flag set)
latches the incoming position as the reference and produces zero offsets;
every later event at `(x, y)` from reference `(lx, ly)` produces offsets
`(x - lx, ly - y)` — the y offset inverted because screen Y grows downward
— and updates the stored reference to `(x, y)`. -/
theorem mouse_Position_Callback_offsets (x y lx ly : ℚ) :
    mouse_Position_Callback x y ⟨lx, ly, true⟩ = (⟨x, y, false⟩, (0, 0))
    ∧ mouse_Position_Callback x y ⟨lx, ly, false⟩
      = (⟨x, y, false⟩, (x - lx, ly - y)) := by
  constructor <;> simp [mouse_Position_Callback]

open SceneManager in
/-- C10: when `m_pShaderManager` is null, `SetTransformations`,
`SetShaderColor`, `SetShaderTexture` and `SetTextureUVScale` upload no
uniform at all and leave the `SceneManager` state unchanged. -/
theorem null_shader_setters_are_noops
    (texs : List TextureEntry) (mats : List OBJECT_MATERIAL) (n : Nat)
    (s : Vec3) (cx sx cy sy cz sz : ℚ) (p : Vec3)
    (r g b a u v : ℚ) (tag : String) :
    setTransformations s cx sx cy sy cz sz p ⟨false, texs, mats, n⟩
      = (⟨false, texs, mats, n⟩, [])
    ∧ setShaderColor r g b a ⟨false, texs, mats, n⟩ = (⟨false, texs, mats, n⟩, [])
    ∧ setShaderTexture tag ⟨false, texs, mats, n⟩ = (⟨false, texs, mats, n⟩, [])
    ∧ setTextureUVScale u v ⟨false, texs, mats, n⟩ = (⟨false, texs, mats, n⟩, []) :=
  ⟨rfl, rfl, rfl, rfl⟩

open SceneManager in
/-- C4: with a live shader manager, `SetShaderTexture` always sets the
use-texture flag to `true` (uploading the int `1`) and uploads exactly the
texture unit `FindTextureSlot` resolves from the tag; when the tag is not
registered the resolved unit is deterministically the sentinel `-1`, so the
uploaded value is a defined fallback rather than unspecified. -/
theorem setShaderTexture_enables_flag_and_uploads_slot
    (st : SceneManagerState) (tag : String) (h : st.hasShaderManager = true) :
    (setShaderTexture tag st).2
      = [.setIntValue "bUseTexture" 1,
         .setSampler2DValue "objectTexture" (findTextureSlot st.textureIDs tag)]
    ∧ ((∀ e ∈ st.textureIDs, e.tag ≠ tag) → findTextureSlot st.textureIDs tag = -1) := by
  constructor
  · simp [setShaderTexture, h]
  · intro hfresh
    exact findTextureSlotAux_not_found st.textureIDs tag hfresh 0

/-- Witness for C4: a one-entry catalog under tag `t`, queried with the
unregistered tag `u`: the flag upload and the sentinel `-1` upload both
happen. -/
theorem setShaderTexture_enables_flag_and_uploads_slot_witness :
    (⟨true, [⟨5, "t"⟩], [], 6⟩ : SceneManagerState).hasShaderManager = true
    ∧ (SceneManager.setShaderTexture "u" ⟨true, [⟨5, "t"⟩], [], 6⟩).2
        = [.setIntValue "bUseTexture" 1, .setSampler2DValue "objectTexture" (-1)]
    ∧ SceneManager.findTextureSlot [⟨5, "t"⟩] "u" = -1 := by
  have h := setShaderTexture_enables_flag_and_uploads_slot ⟨true, [⟨5, "t"⟩], [], 6⟩ "u" rfl
  exact ⟨rfl, h.1, h.2 (by decide)⟩

open SceneManager in
/-- C5: a successfully decoded image whose channel count is neither 3 nor 4
makes `CreateGLTexture` return `false` and leaves the texture catalog
unchanged: only 3- and 4-channel images are accepted and registered. -/
theorem createGLTexture_rejects_bad_channel_count
    (st : SceneManagerState) (tag : String) (image : ImageData)
    (h3 : image.colorChannels ≠ 3) (h4 : image.colorChannels ≠ 4) :
    (createGLTexture (some image) tag st).1 = false
    ∧ (createGLTexture (some image) tag st).2.textureIDs = st.textureIDs := by
  have hcond : ¬(image.colorChannels = 3 ∨ image.colorChannels = 4) := by
    rintro (h | h)
    · exact h3 h
    · exact h4 h
  constructor <;> simp [createGLTexture, hcond]

/-- Witness for C5: an 8×8 two-channel image under tag `t` is rejected and
the (empty) catalog stays empty. -/
theorem createGLTexture_rejects_bad_channel_count_witness :
    (ImageData.mk 8 8 2).colorChannels ≠ 3
    ∧ (ImageData.mk 8 8 2).colorChannels ≠ 4
    ∧ (SceneManager.createGLTexture (some ⟨8, 8, 2⟩) "t" ⟨true, [], [], 0⟩).1 = false
    ∧ (SceneManager.createGLTexture (some ⟨8, 8, 2⟩) "t" ⟨true, [], [], 0⟩).2.textureIDs
        = [] := by
  have h := createGLTexture_rejects_bad_channel_count ⟨true, [], [], 0⟩ "t" ⟨8, 8, 2⟩
    (by decide) (by decide)
  exact ⟨by decide, by decide, h.1, h.2⟩

open SceneManager in
/-- C6: loading two images under one tag (not previously in the catalog)
both succeed and append two distinct catalog entries — the catalog is
append-only and grows by exactly the two tagged entries — and a subsequent
lookup of that tag returns the slot of the first-registered entry (the
duplicate is never returned). -/
theorem duplicate_tag_textures_first_match
    (st : SceneManagerState) (tag : String) (img1 img2 : ImageData)
    (h1 : img1.colorChannels = 3 ∨ img1.colorChannels = 4)
    (h2 : img2.colorChannels = 3 ∨ img2.colorChannels = 4)
    (hfresh : ∀ e ∈ st.textureIDs, e.tag ≠ tag) :
    (createGLTexture (some img1) tag st).1 = true
    ∧ (createGLTexture (some img2) tag (createGLTexture (some img1) tag st).2).1 = true
    ∧ (createGLTexture (some img2) tag (createGLTexture (some img1) tag st).2).2.textureIDs
        = st.textureIDs ++ [⟨st.nextTextureID, tag⟩, ⟨st.nextTextureID + 1, tag⟩]
    ∧ findTextureSlot
        (createGLTexture (some img2) tag (createGLTexture (some img1) tag st).2).2.textureIDs
        tag
      = (st.textureIDs.length : Int) := by
  have e1 : createGLTexture (some img1) tag st
      = (true, ⟨st.hasShaderManager, st.textureIDs ++ [⟨st.nextTextureID, tag⟩],
                st.objectMaterials, st.nextTextureID + 1⟩) := by
    simp only [createGLTexture]
    rw [if_pos h1]
  have e2 : createGLTexture (some img2) tag
        ⟨st.hasShaderManager, st.textureIDs ++ [⟨st.nextTextureID, tag⟩],
         st.objectMaterials, st.nextTextureID + 1⟩
      = (true, ⟨st.hasShaderManager,
                (st.textureIDs ++ [⟨st.nextTextureID, tag⟩]) ++ [⟨st.nextTextureID + 1, tag⟩],
                st.objectMaterials, st.nextTextureID + 2⟩) := by
    simp only [createGLTexture]
    rw [if_pos h2]
  have hlist : (st.textureIDs ++ [⟨st.nextTextureID, tag⟩]) ++ [⟨st.nextTextureID + 1, tag⟩]
      = st.textureIDs ++ (⟨st.nextTextureID, tag⟩ :: [⟨st.nextTextureID + 1, tag⟩]) := by
    rw [List.append_assoc]
    rfl
  refine ⟨by rw [e1], by rw [e1, e2], by rw [e1, e2]; exact hlist, ?_⟩
  rw [e1, e2]
  show findTextureSlot _ tag = _
  rw [hlist, findTextureSlot,
    findTextureSlotAux_first_match st.textureIDs ⟨st.nextTextureID, tag⟩
      [⟨st.nextTextureID + 1, tag⟩] tag hfresh rfl 0]
  norm_num

/-- Witness for C6: starting from a catalog holding one texture tagged `w`,
two loads under tag `t` (a 3-channel and a 4-channel image) both succeed,
the catalog gains exactly the two new entries, and looking `t` up returns
slot 1 — the first of the two. -/
theorem duplicate_tag_textures_first_match_witness :
    ((ImageData.mk 4 4 3).colorChannels = 3 ∨ (ImageData.mk 4 4 3).colorChannels = 4)
    ∧ ((ImageData.mk 2 2 4).colorChannels = 3 ∨ (ImageData.mk 2 2 4).colorChannels = 4)
    ∧ (∀ e ∈ [(⟨9, "w"⟩ : TextureEntry)], e.tag ≠ "t")
    ∧ (SceneManager.createGLTexture (some ⟨4, 4, 3⟩) "t" ⟨true, [⟨9, "w"⟩], [], 10⟩).1 = true
    ∧ (SceneManager.createGLTexture (some ⟨2, 2, 4⟩) "t"
         (SceneManager.createGLTexture (some ⟨4, 4, 3⟩) "t" ⟨true, [⟨9, "w"⟩], [], 10⟩).2).1
        = true
    ∧ (SceneManager.createGLTexture (some ⟨2, 2, 4⟩) "t"
         (SceneManager.createGLTexture (some ⟨4, 4, 3⟩) "t" ⟨true, [⟨9, "w"⟩], [], 10⟩).2).2.textureIDs
        = [⟨9, "w"⟩, ⟨10, "t"⟩, ⟨11, "t"⟩]
    ∧ SceneManager.findTextureSlot [⟨9, "w"⟩, ⟨10, "t"⟩, ⟨11, "t"⟩] "t" = 1 := by
  have h := duplicate_tag_textures_first_match ⟨true, [⟨9, "w"⟩], [], 10⟩ "t" ⟨4, 4, 3⟩ ⟨2, 2, 4⟩
    (Or.inl rfl) (Or.inr rfl) (by decide)
  exact ⟨Or.inl rfl, Or.inr rfl, by decide, h.1, h.2.1, h.2.2.1, h.2.2.2⟩

open SceneManager in
/-- C7: `BindGLTextures` binds every registered texture to sequential
texture units starting at unit 0 in registration order (the bind sequence
is exactly the catalog enumerated with its indices); consequently, for a
catalog within the 16-unit ceiling, the `i`-th entry — written as the one
after the prefix `pre`, whose tag no earlier entry carries — is bound to
unit `i = pre.length` (a unit below the ceiling) and `FindTextureSlot`
resolves its tag to exactly that unit. -/
theorem bindGLTextures_sequential_units
    (st : SceneManagerState) (pre post : List TextureEntry) (entry : TextureEntry)
    (hsplit : st.textureIDs = pre ++ entry :: post)
    (hcap : st.textureIDs.length ≤ 16)
    (hfresh : ∀ e ∈ pre, e.tag ≠ entry.tag) :
    bindGLTextures st = (List.enum st.textureIDs).map (fun pe => (pe.1, pe.2.ID))
    ∧ (bindGLTextures st).get? pre.length = some (pre.length, entry.ID)
    ∧ pre.length < 16
    ∧ findTextureSlot st.textureIDs entry.tag = (pre.length : Int) := by
  refine ⟨?_, ?_, ?_, ?_⟩
  · rw [bindGLTextures, bindGLTexturesAux_eq_enumFrom]
    rfl
  · rw [bindGLTextures, hsplit, bindGLTexturesAux_get_split]
    norm_num
  · have hlen : pre.length < st.textureIDs.length := by
      rw [hsplit, List.length_append, List.length_cons]
      omega
    omega
  · rw [hsplit, findTextureSlot,
      findTextureSlotAux_first_match pre entry post entry.tag hfresh rfl 0]
    norm_num

/-- Witness for C7: a two-entry catalog with tags `t` then `u`: the bind
sequence is `[(0, 7), (1, 9)]`, the second entry is bound to unit 1, and
looking up `u` yields unit 1 (the first loaded tag `t` resolves to 0 by the
same theorem with the empty prefix). -/
theorem bindGLTextures_sequential_units_witness :
    (⟨true, [⟨7, "t"⟩, ⟨9, "u"⟩], [], 12⟩ : SceneManagerState).textureIDs
        = [⟨7, "t"⟩] ++ ⟨9, "u"⟩ :: []
    ∧ (⟨true, [⟨7, "t"⟩, ⟨9, "u"⟩], [], 12⟩ : SceneManagerState).textureIDs.length ≤ 16
    ∧ (∀ e ∈ [(⟨7, "t"⟩ : TextureEntry)], e.tag ≠ "u")
    ∧ SceneManager.bindGLTextures ⟨true, [⟨7, "t"⟩, ⟨9, "u"⟩], [], 12⟩ = [(0, 7), (1, 9)]
    ∧ (SceneManager.bindGLTextures ⟨true, [⟨7, "t"⟩, ⟨9, "u"⟩], [], 12⟩).get? 1
        = some (1, 9)
    ∧ SceneManager.findTextureSlot [⟨7, "t"⟩, ⟨9, "u"⟩] "u" = 1 := by
  have h := bindGLTextures_sequential_units ⟨true, [⟨7, "t"⟩, ⟨9, "u"⟩], [], 12⟩
    [⟨7, "t"⟩] [] ⟨9, "u"⟩ rfl (by decide) (by decide)
  exact ⟨rfl, by decide, by decide, h.1, h.2.1, h.2.2.2⟩

open SceneManager in
/-- C2: refuted on the code.  With the program's own non-empty material
catalog (the six materials of `DefineObjectMaterials`) and a tag that is in
no entry, `FindMaterial` still returns `true` — the `return(true)` at
SceneManager.cpp line 254 ignores the loop's `bFound` flag — leaving the
caller's out-parameter untouched, and `SetShaderMaterial` consequently
uploads the junk contents of its uninitialised local `material` variable
instead of being a no-op.  (`RenderScene` line 520 actually hits this path:
it requests the tag `default`, which the catalog does not contain.) -/
theorem findMaterial_missing_tag_reports_found :
    (∀ e ∈ definedObjectMaterials, e.tag ≠ "nosuch")
    ∧ (findMaterial definedObjectMaterials "nosuch"
         ⟨⟨1/4, 1/2, 3/4⟩, ⟨1/10, 1/5, 3/10⟩, 42, "junk"⟩).1 = true
    ∧ (findMaterial definedObjectMaterials "nosuch"
         ⟨⟨1/4, 1/2, 3/4⟩, ⟨1/10, 1/5, 3/10⟩, 42, "junk"⟩).2
        = ⟨⟨1/4, 1/2, 3/4⟩, ⟨1/10, 1/5, 3/10⟩, 42, "junk"⟩
    ∧ (setShaderMaterial ⟨⟨1/4, 1/2, 3/4⟩, ⟨1/10, 1/5, 3/10⟩, 42, "junk"⟩ "nosuch"
         ⟨true, [], definedObjectMaterials, 0⟩).2
        = [.setVec3Value "material.diffuseColor" ⟨1/4, 1/2, 3/4⟩,
           .setVec3Value "material.specularColor" ⟨1/10, 1/5, 3/10⟩,
           .setFloatValue "material.shininess" 42]
    ∧ materialTagFound definedObjectMaterials "nosuch" = false :=
  ⟨by decide, rfl, rfl, rfl, by decide⟩
